import Mathlib

/-!
Verification of `leerdatos.py`, a linear exploratory-data-analysis script:
it loads `datos_sinteticos.csv` with pandas (comma delimiter, falling back
once to a semicolon), prints a fixed sequence of summaries (head, shape,
dtypes, null counts, describe, duplicates, categorical value counts) and
writes plots (histogram and boxplot per numeric column, plus a correlation
heatmap when at least two numeric columns exist) into an `output` directory.

The script's control flow is embedded as the pure function `main`, which
maps an environment (does the file exist, what does each parse attempt
return) to the ordered trace of observable effects.  Calls into pandas,
matplotlib and seaborn are represented as structured trace events carrying
the arguments the script passes to them; the two parse attempts are inputs
of the environment, since their outcome is decided by the pandas parser,
not by this repository's code.  Where a claim needs the behaviour of a
library routine itself (CSV parsing, duplicate detection), that routine is
modelled separately from the spec, with `Modelled from the spec:` in its
doc comment.

The two `describe` calls with an explicit `include` (lines 76 and 81) are
fallible: pandas raises `ValueError: No objects to concatenate` when the
selection matches no column, and the script does not guard either call, so
a Dataset without numeric columns aborts at line 76 and one without
object/category columns aborts at line 81, before the duplicate report and
all plotting.  The trace models this abort with the `raisedError` event,
after which nothing further is emitted.
-/

/-- A cell of the loaded table: `none` models a missing value (NaN). -/
abbrev Cell := Option String

/-- A row of the loaded table, one cell per column. -/
abbrev Row := List Cell

/-- The dtype pandas infers for a column: `numeric` covers the `number`
selector of `select_dtypes`, `object` and `category` are the kinds tested
for on line 92 of `leerdatos.py`, `other` is everything else
(datetimes, booleans, ...). -/
inductive Dtype where
  | numeric
  | object
  | category
  | other
  deriving DecidableEq, Repr

/-- A named column together with its inferred dtype. -/
structure Column where
  name : String
  dtype : Dtype
  deriving DecidableEq, Repr

/-- The in-memory table produced by `pd.read_csv`: the Dataset entity of
the data model. -/
structure Dataset where
  cols : List Column
  rows : List Row
  deriving DecidableEq, Repr

/-- The `df.shape` pair: (number of rows, number of columns). -/
def shape (df : Dataset) : Nat × Nat := (df.rows.length, df.cols.length)

/-- Line 100: `df.select_dtypes(include='number').columns.tolist()`. -/
def num_cols (df : Dataset) : List String :=
  (df.cols.filter (fun c => decide (c.dtype = Dtype.numeric))).map Column.name

/-- Line 92: the columns whose dtype is `object` or starts with
`category`. -/
def cat_cols (df : Dataset) : List String :=
  (df.cols.filter
    (fun c => decide (c.dtype = Dtype.object ∨ c.dtype = Dtype.category))).map
    Column.name

/-- Modelled from the spec: `df.duplicated()` is a pandas routine, not part
of this repository.  With its default arguments it marks each row that is
identical, across all columns, to some earlier row, so the first occurrence
of a value is never marked.  `duplicatedAux seen rows` returns, in order,
the rows of `rows` already seen (the accumulator `seen` holds the rows
encountered so far). -/
def duplicatedAux (seen : List Row) : List Row → List Row
  | [] => []
  | r :: rs =>
      if r ∈ seen then r :: duplicatedAux (r :: seen) rs
      else duplicatedAux (r :: seen) rs

/-- The rows of `rows` marked by `df.duplicated()`, in order. -/
def duplicated (rows : List Row) : List Row := duplicatedAux [] rows

/-- Line 85: `dup_count = df.duplicated().sum()`. -/
def dup_count (df : Dataset) : Nat := (duplicated df.rows).length

/-- Line 89: `df[df.duplicated()].head()` — the first (up to) 5 duplicated
rows. -/
def dup_examples (df : Dataset) : List Row := (duplicated df.rows).take 5

/-- The count of missing values in column `i` (line 71, per column). -/
def colNullCount (df : Dataset) (i : Nat) : Nat :=
  (df.rows.map (fun r => r.getD i none)).count none

/-- Line 71: `df.isnull().sum()` — per-column null counts, in column
order. -/
def nullCounts (df : Dataset) : List (String × Nat) :=
  df.cols.enum.map (fun p => (p.2.name, colNullCount df p.1))

/-- An observable effect of one step of the script: a console print
(structured by which summary it reports), a matplotlib/seaborn call with
the arguments the script passes, a filesystem action, or an unhandled
library exception that aborts the process (`raisedError`, carrying the
exception's message). -/
inductive Event where
  | print (s : String)
  | printHead (rows : List Row)
  | printShape (nrows ncols : Nat)
  | printDtypes (l : List (String × Dtype))
  | printNulls (l : List (String × Nat))
  | printDescribeNumeric (cols : List String)
  | printDescribeNonNumeric (cols : List String)
  | printDupCount (k : Nat)
  | printDupExamples (rows : List Row)
  | printValueCounts (col : String)
  | traceback
  | mkdirOutput
  | figure (w h : ℚ)
  | histplot (col : String)
  | boxplot (col : String)
  | heatmap (method : String) (cols : List String) (annotDecimals : Nat)
  | savefig (fn : String)
  | raisedError (msg : String)
  deriving DecidableEq

/-- The environment a run of `main` observes: whether
`datos_sinteticos.csv` exists next to the script, what
`pd.read_csv(csv_path)` returns (`none` models a raised parse error), what
`pd.read_csv(csv_path, sep=';')` returns, and the directory the script
lives in. -/
structure Env where
  fileExists : Bool
  parseComma : Option Dataset
  parseSemicolon : Option Dataset
  basePath : String
  deriving DecidableEq

/-- Line 36: `csv_path = base / "datos_sinteticos.csv"`. -/
def csvPath (env : Env) : String := env.basePath ++ "/datos_sinteticos.csv"

/-- Line 55: `out_dir = base / "output"`. -/
def outDir (env : Env) : String := env.basePath ++ "/output"

/-- Line 39's message. -/
def notFoundMsg (env : Env) : String :=
  "No se encontró el archivo: " ++ csvPath env

/-- Line 42's message. -/
def loadingMsg (env : Env) : String := "Cargando: " ++ csvPath env ++ "\n"

/-- Line 134's message. -/
def completedMsg (env : Env) : String :=
  "\nAnálisis completado. Archivos de salida en: " ++ outDir env

/-- Lines 44-53: try the comma delimiter; on failure retry exactly once
with the semicolon delimiter. -/
def loadDataset (env : Env) : Option Dataset :=
  match env.parseComma with
  | some df => some df
  | none => env.parseSemicolon

/-- The message of the `ValueError` pandas raises when `describe` is
given an explicit `include` selection that matches no column. -/
def noObjectsMsg : String := "No objects to concatenate"

/-- Lines 58-75: the report events up to and including the header print
of line 75, after which `df.describe(include='number')` runs. -/
def summaryHead (df : Dataset) : List Event :=
  [Event.print "Primeras 5 filas:",
   Event.printHead (df.rows.take 5),
   Event.printShape df.rows.length df.cols.length,
   Event.printDtypes (df.cols.map (fun c => (c.name, c.dtype))),
   Event.printNulls (nullCounts df),
   Event.print "Estadísticas descriptivas (numéricas):"]

/-- Lines 84-89: the duplicate report — count, then examples when the
count is positive. -/
def dupBlock (df : Dataset) : List Event :=
  Event.printDupCount (dup_count df) ::
    (if 0 < dup_count df then
      [Event.print "Ejemplo de filas duplicadas:",
       Event.printDupExamples (dup_examples df)]
     else [])

/-- Lines 91-97: per-categorical-column value counts, emitted only when
categorical columns exist. -/
def catCountsBlock (df : Dataset) : List Event :=
  if cat_cols df = [] then []
  else
    Event.print
      "Conteos para columnas categóricas (primeras 10 categorías si existen):" ::
    (cat_cols df).map Event.printValueCounts

/-- Lines 58-97: the Summary Reporter's trace on a loaded Dataset.
`df.describe(include='number')` at line 76 raises
`ValueError: No objects to concatenate` when the Dataset has no numeric
column, and `df.describe(include=['object', 'category'])` at line 81
raises it when the Dataset has no object/category column; neither call is
guarded, so the raise aborts the run there. -/
def summaryEvents (df : Dataset) : List Event :=
  summaryHead df ++
  (if num_cols df = [] then [Event.raisedError noObjectsMsg]
   else
    Event.printDescribeNumeric (num_cols df) ::
    Event.print "Estadísticas (no numéricas):" ::
    (if cat_cols df = [] then [Event.raisedError noObjectsMsg]
     else
      Event.printDescribeNonNumeric (cat_cols df) ::
      (dupBlock df ++ catCountsBlock df)))

/-- Line 108's filename for a column. -/
def histFile (c : String) : String := "hist_" ++ c ++ ".png"

/-- Line 116's filename for a column. -/
def boxFile (c : String) : String := "box_" ++ c ++ ".png"

/-- Lines 103-118: one loop iteration — histogram then boxplot for one
numeric column. -/
def perColumnPlots (c : String) : List Event :=
  [Event.figure 8 4, Event.histplot c, Event.savefig (histFile c),
   Event.figure 6 4, Event.boxplot c, Event.savefig (boxFile c)]

/-- Line 124: `figsize=(max(6, len(num_cols)), max(4, len(num_cols) / 2))`
— Python `/` is exact division, so the sizes live in ℚ. -/
def corrFigsize (k : Nat) : ℚ × ℚ := (max 6 (k : ℚ), max 4 ((k : ℚ) / 2))

/-- Lines 100-132: the Plot Renderer's trace on a loaded Dataset.
`df[num_cols].corr()` uses pandas' default method, Pearson. -/
def plotEvents (df : Dataset) : List Event :=
  if num_cols df = [] then
    [Event.print "No se detectaron columnas numéricas para graficar."]
  else
    Event.print
      "Generando histogramas y boxplots para columnas numéricas (guardados en ./output)" ::
    ((num_cols df).flatMap perColumnPlots ++
     (if 1 < (num_cols df).length then
       [Event.print
          "Generando mapa de correlación (guardado en ./output/correlation_matrix.png)",
        Event.figure (corrFigsize (num_cols df).length).1
          (corrFigsize (num_cols df).length).2,
        Event.heatmap "pearson" (num_cols df) 2,
        Event.savefig "correlation_matrix.png"]
      else []))

/-- Lines 55-134: everything after a successful load — create the output
directory, then report; the plots and the completion line are reached only
when neither `describe` call raised (at least one numeric and at least one
object/category column). -/
def runLoaded (env : Env) (df : Dataset) : List Event :=
  Event.mkdirOutput ::
    (summaryEvents df ++
      (if num_cols df = [] ∨ cat_cols df = [] then []
       else plotEvents df ++ [Event.print (completedMsg env)]))

/-- Lines 35-134 of `main` (the dependency guard of lines 23-31 is outside
the environment: this trace is the run once the imports succeeded). -/
def mainTrace (env : Env) : List Event :=
  if env.fileExists then
    match loadDataset env with
    | some df => Event.print (loadingMsg env) :: runLoaded env df
    | none =>
        [Event.print (loadingMsg env),
         Event.print "Error leyendo el CSV. Mostrar traceback:",
         Event.traceback]
  else [Event.print (notFoundMsg env)]

/-- The filenames passed to `plt.savefig`, in order. -/
def saveFiles (es : List Event) : List String :=
  es.filterMap (fun e =>
    match e with
    | Event.savefig fn => some fn
    | _ => none)

/-- The filesystem actions of a trace (directory creation and file
writes), in order. -/
def fsEvents (es : List Event) : List Event :=
  es.filter (fun e =>
    match e with
    | Event.mkdirOutput => true
    | Event.savefig _ => true
    | _ => false)

/-- Modelled from the spec: `pd.read_csv` is a pandas routine, not part of
this repository.  Splitting one text line at the delimiter: `acc` holds
the characters of the current field, reversed. -/
def splitRowAux (delim : Char) (acc : List Char) : List Char → List String
  | [] => [String.mk acc.reverse]
  | ch :: rest =>
      if ch = delim then String.mk acc.reverse :: splitRowAux delim [] rest
      else splitRowAux delim (ch :: acc) rest

/-- Modelled from the spec: one text line split at the delimiter into its
fields. -/
def splitRow (delim : Char) (line : String) : List String :=
  splitRowAux delim [] line.data

/-- Modelled from the spec: whether a cell's text parses as a number, the
classification step behind dtype inference. -/
def isNumericCell (s : String) : Bool := s.toInt?.isSome

/-- Modelled from the spec: the dtype-inference pass classifying a column
from its cells — numeric when every cell parses as a number, text
otherwise. -/
def inferDtype (cells : List String) : Dtype :=
  if cells.all isNumericCell then Dtype.numeric else Dtype.object

/-- Modelled from the spec: `pd.read_csv` on the lines of the file — the
first line names the columns, every further line is one row, and parsing
fails when a row's field count differs from the header's. -/
def parseCSV (delim : Char) (lines : List String) : Option Dataset :=
  match lines with
  | [] => none
  | header :: rest =>
      let names := splitRow delim header
      let rawRows := rest.map (splitRow delim)
      if rawRows.all (fun r => r.length == names.length) then
        some
          { cols := names.enum.map (fun p =>
              { name := p.2,
                dtype := inferDtype (rawRows.filterMap (fun r => r.get? p.1)) }),
            rows := rawRows.map (fun r => r.map some) }
      else none

/-! ### Helper lemmas -/

/-- A trace of an environment with the file present and a loaded Dataset. -/
theorem mainTrace_loaded (env : Env) (df : Dataset)
    (hfe : env.fileExists = true) (h : loadDataset env = some df) :
    mainTrace env = Event.print (loadingMsg env) :: runLoaded env df := by
  simp [mainTrace, hfe, h]

/-- The Summary Reporter performs no filesystem action, on every branch —
whether it completes or aborts inside a `describe`. -/
theorem fsEvents_summary (df : Dataset) : fsEvents (summaryEvents df) = [] := by
  unfold fsEvents summaryEvents summaryHead dupBlock catCountsBlock
  by_cases h0 : num_cols df = [] <;> by_cases h1 : 0 < dup_count df <;>
    by_cases h2 : cat_cols df = [] <;>
      simp [h0, h1, h2, List.filter_append, List.filter_map]

/-- The Summary Reporter saves no file, on every branch. -/
theorem saveFiles_summary (df : Dataset) : saveFiles (summaryEvents df) = [] := by
  unfold saveFiles summaryEvents summaryHead dupBlock catCountsBlock
  by_cases h0 : num_cols df = [] <;> by_cases h1 : 0 < dup_count df <;>
    by_cases h2 : cat_cols df = [] <;>
      simp [h0, h1, h2, List.filterMap_append, List.filterMap_map]

/-- The hist/box filenames the per-column loop saves, in column order. -/
def histBoxSaves (df : Dataset) : List String :=
  (num_cols df).flatMap (fun c => [histFile c, boxFile c])

/-- A histogram filename never collides with the correlation file. -/
theorem histFile_ne_corr (c : String) :
    histFile c ≠ "correlation_matrix.png" := by
  intro h
  have h2 := congrArg String.data h
  rw [histFile] at h2
  rw [String.data_append, String.data_append] at h2
  have hh : "hist_".data = ['h', 'i', 's', 't', '_'] := rfl
  rw [hh] at h2
  simp at h2

/-- A boxplot filename never collides with the correlation file. -/
theorem boxFile_ne_corr (c : String) :
    boxFile c ≠ "correlation_matrix.png" := by
  intro h
  have h2 := congrArg String.data h
  rw [boxFile] at h2
  rw [String.data_append, String.data_append] at h2
  have hh : "box_".data = ['b', 'o', 'x', '_'] := rfl
  rw [hh] at h2
  simp at h2

/-- The files the per-column loop saves. -/
theorem saveFiles_flatMap (l : List String) :
    saveFiles (l.flatMap perColumnPlots) =
      l.flatMap (fun c => [histFile c, boxFile c]) := by
  induction l with
  | nil => rfl
  | cons c cs ih =>
      simp only [List.flatMap_cons, saveFiles, List.filterMap_append] at ih ⊢
      rw [ih]
      rfl

/-- The complete list of files the Plot Renderer saves: the hist/box pair
per numeric column, then the correlation matrix when more than one numeric
column exists. -/
theorem saveFiles_plot (df : Dataset) :
    saveFiles (plotEvents df) =
      histBoxSaves df ++
        (if 1 < (num_cols df).length then ["correlation_matrix.png"]
         else []) := by
  by_cases h : num_cols df = []
  · simp [plotEvents, h, histBoxSaves, saveFiles]
  · by_cases h2 : 1 < (num_cols df).length <;>
      simp [plotEvents, h, h2, saveFiles, List.filterMap_append,
        histBoxSaves, ← saveFiles_flatMap, List.filterMap_cons]

/-- Each numeric column contributes exactly two files. -/
theorem length_histBoxSaves (df : Dataset) :
    (histBoxSaves df).length = 2 * (num_cols df).length := by
  unfold histBoxSaves
  induction num_cols df with
  | nil => rfl
  | cons c cs ih => simp only [List.flatMap_cons, List.length_append,
      List.length_cons, List.length_nil, ih]; omega

/-- Rows already seen are counted in full by `duplicatedAux`. -/
theorem duplicatedAux_count_mem (rows : List Row) (seen : List Row) (v : Row)
    (hs : v ∈ seen) : (duplicatedAux seen rows).count v = rows.count v := by
  induction rows generalizing seen with
  | nil => rfl
  | cons r rs ih =>
      have hmem : v ∈ r :: seen := List.mem_cons_of_mem r hs
      by_cases hr : r ∈ seen
      · simp only [duplicatedAux, if_pos hr, List.count_cons, ih (r :: seen) hmem]
      · have hrv : r ≠ v := fun h => hr (h ▸ hs)
        simp [duplicatedAux, if_neg hr, List.count_cons, ih (r :: seen) hmem, hrv]

/-- A row not yet seen loses exactly its first occurrence in
`duplicatedAux`. -/
theorem duplicatedAux_count_not_mem (rows : List Row) (seen : List Row)
    (v : Row) (hs : v ∉ seen) (hv : v ∈ rows) :
    (duplicatedAux seen rows).count v = rows.count v - 1 := by
  induction rows generalizing seen with
  | nil => cases hv
  | cons r rs ih =>
      by_cases hrv : r = v
      · subst hrv
        have hr : r ∉ seen := hs
        have h2 : r ∈ r :: seen := List.mem_cons_self r seen
        simp [duplicatedAux, if_neg hr,
          duplicatedAux_count_mem rs (r :: seen) r h2, List.count_cons]
      · have hv' : v ∈ rs := by
          rcases List.mem_cons.mp hv with h | h
          · exact absurd h.symm hrv
          · exact h
        have hs' : v ∉ r :: seen := by
          intro h
          rcases List.mem_cons.mp h with h | h
          · exact hrv h.symm
          · exact hs h
        by_cases hr : r ∈ seen
        · simp [duplicatedAux, if_pos hr, List.count_cons, ih (r :: seen) hs' hv', hrv]
        · simp [duplicatedAux, if_neg hr, List.count_cons, ih (r :: seen) hs' hv', hrv]

/-- In the marked duplicates, each row value occurring in the table
appears one time fewer than in the table itself. -/
theorem duplicated_count (rows : List Row) (v : Row) (hv : v ∈ rows) :
    (duplicated rows).count v = rows.count v - 1 :=
  duplicatedAux_count_not_mem rows [] v (List.not_mem_nil v) hv

/-! ### Claim theorems -/

/-- C1: when the comma-delimiter parse fails, the Loader retries exactly
once, with the semicolon delimiter; when that attempt also fails, the run
prints the diagnostic-trace message and the traceback and terminates
without any summary, directory creation or plotting step. -/
theorem loader_fallback_policy (env : Env)
    (hfe : env.fileExists = true) (hc : env.parseComma = none) :
    loadDataset env = env.parseSemicolon ∧
    (env.parseSemicolon = none →
      mainTrace env =
        [Event.print (loadingMsg env),
         Event.print "Error leyendo el CSV. Mostrar traceback:",
         Event.traceback] ∧
      Event.mkdirOutput ∉ mainTrace env ∧
      (∀ fn, Event.savefig fn ∉ mainTrace env) ∧
      (∀ n m, Event.printShape n m ∉ mainTrace env)) := by
  constructor
  · simp [loadDataset, hc]
  · intro hsemi
    have hload : loadDataset env = none := by simp [loadDataset, hc, hsemi]
    have htr : mainTrace env =
        [Event.print (loadingMsg env),
         Event.print "Error leyendo el CSV. Mostrar traceback:",
         Event.traceback] := by
      simp [mainTrace, hfe, hload]
    refine ⟨htr, ?_, ?_, ?_⟩ <;> simp [htr]

/-- Witness for C1 at a concrete environment where both parses fail. -/
theorem loader_fallback_policy_witness :
    Env.fileExists ⟨true, none, none, "/app"⟩ = true ∧
    Env.parseComma ⟨true, none, none, "/app"⟩ = none ∧
    (loadDataset ⟨true, none, none, "/app"⟩ =
        Env.parseSemicolon ⟨true, none, none, "/app"⟩ ∧
      (Env.parseSemicolon ⟨true, none, none, "/app"⟩ = none →
        mainTrace ⟨true, none, none, "/app"⟩ =
          [Event.print (loadingMsg ⟨true, none, none, "/app"⟩),
           Event.print "Error leyendo el CSV. Mostrar traceback:",
           Event.traceback] ∧
        Event.mkdirOutput ∉ mainTrace ⟨true, none, none, "/app"⟩ ∧
        (∀ fn, Event.savefig fn ∉ mainTrace ⟨true, none, none, "/app"⟩) ∧
        (∀ n m, Event.printShape n m ∉ mainTrace ⟨true, none, none, "/app"⟩))) :=
  ⟨rfl, rfl, loader_fallback_policy ⟨true, none, none, "/app"⟩ rfl rfl⟩

/-- C5: when the input CSV file does not exist, the run prints exactly one
message — containing the path — and terminates before creating the output
directory or writing anything into it. -/
theorem missing_file_aborts (env : Env) (hfe : env.fileExists = false) :
    mainTrace env = [Event.print (notFoundMsg env)] ∧
    (∃ pre suf, notFoundMsg env = pre ++ csvPath env ++ suf) ∧
    Event.mkdirOutput ∉ mainTrace env ∧
    (∀ fn, Event.savefig fn ∉ mainTrace env) := by
  have htr : mainTrace env = [Event.print (notFoundMsg env)] := by
    simp [mainTrace, hfe]
  refine ⟨htr, ⟨"No se encontró el archivo: ", "", ?_⟩, ?_, ?_⟩
  · simp [notFoundMsg]
  · simp [htr]
  · simp [htr]

/-- Witness for C5 at a concrete environment with the file absent. -/
theorem missing_file_aborts_witness :
    Env.fileExists ⟨false, none, none, "/app"⟩ = false ∧
    (mainTrace ⟨false, none, none, "/app"⟩ =
        [Event.print (notFoundMsg ⟨false, none, none, "/app"⟩)] ∧
      (∃ pre suf, notFoundMsg ⟨false, none, none, "/app"⟩ =
          pre ++ csvPath ⟨false, none, none, "/app"⟩ ++ suf) ∧
      Event.mkdirOutput ∉ mainTrace ⟨false, none, none, "/app"⟩ ∧
      (∀ fn, Event.savefig fn ∉ mainTrace ⟨false, none, none, "/app"⟩)) :=
  ⟨rfl, missing_file_aborts ⟨false, none, none, "/app"⟩ rfl⟩

/-- C9: the trace — and so the printed report — is a function of the
environment's four observable inputs alone; two runs over the same file
produce identical output. -/
theorem report_deterministic (e₁ e₂ : Env)
    (h1 : e₁.fileExists = e₂.fileExists)
    (h2 : e₁.parseComma = e₂.parseComma)
    (h3 : e₁.parseSemicolon = e₂.parseSemicolon)
    (h4 : e₁.basePath = e₂.basePath) :
    mainTrace e₁ = mainTrace e₂ := by
  have he : e₁ = e₂ := by
    cases e₁
    cases e₂
    simp_all
  rw [he]

/-- Witness for C9: two textually distinct but equal environments. -/
theorem report_deterministic_witness :
    mainTrace ⟨true, some ⟨[⟨"a", Dtype.numeric⟩], [[some "1"]]⟩, none, "/app"⟩ =
      mainTrace ⟨true, some ⟨[⟨"a", Dtype.numeric⟩], [[some "1"]]⟩, none, "/app"⟩ :=
  report_deterministic
    ⟨true, some ⟨[⟨"a", Dtype.numeric⟩], [[some "1"]]⟩, none, "/app"⟩
    ⟨true, some ⟨[⟨"a", Dtype.numeric⟩], [[some "1"]]⟩, none, "/app"⟩
    rfl rfl rfl rfl

/-- The Plot Renderer never prints duplicate examples. -/
theorem printDupExamples_not_mem_plot (df : Dataset) (l : List Row) :
    Event.printDupExamples l ∉ plotEvents df := by
  unfold plotEvents
  by_cases h : num_cols df = []
  · simp [h]
  · by_cases h2 : 1 < (num_cols df).length <;>
      simp [h, h2, List.mem_flatMap, perColumnPlots]

/-- C2 (amended): on every successfully loaded Dataset that has at least
one numeric and at least one object/category column, each Summary Reporter
operation produces its report event and the run reaches the final
completion line.  Without such columns the corresponding unguarded
`describe` call (line 76 or 81) raises and aborts the run. -/
theorem summary_reporter_total (env : Env) (df : Dataset)
    (hfe : env.fileExists = true) (h : loadDataset env = some df)
    (hN : num_cols df ≠ []) (hC : cat_cols df ≠ []) :
    Event.printHead (df.rows.take 5) ∈ mainTrace env ∧
    Event.printShape df.rows.length df.cols.length ∈ mainTrace env ∧
    Event.printDtypes (df.cols.map (fun c => (c.name, c.dtype))) ∈ mainTrace env ∧
    Event.printNulls (nullCounts df) ∈ mainTrace env ∧
    Event.printDescribeNumeric (num_cols df) ∈ mainTrace env ∧
    Event.printDescribeNonNumeric (cat_cols df) ∈ mainTrace env ∧
    Event.printDupCount (dup_count df) ∈ mainTrace env ∧
    (∀ c ∈ cat_cols df, Event.printValueCounts c ∈ mainTrace env) ∧
    (mainTrace env).getLast? = some (Event.print (completedMsg env)) := by
  have htr := mainTrace_loaded env df hfe h
  have hcond : ¬(num_cols df = [] ∨ cat_cols df = []) := by
    push_neg
    exact ⟨hN, hC⟩
  refine ⟨?_, ?_, ?_, ?_, ?_, ?_, ?_, ?_, ?_⟩
  · simp [htr, runLoaded, summaryEvents, summaryHead, hN, hC, hcond]
  · simp [htr, runLoaded, summaryEvents, summaryHead, hN, hC, hcond]
  · simp [htr, runLoaded, summaryEvents, summaryHead, hN, hC, hcond]
  · simp [htr, runLoaded, summaryEvents, summaryHead, hN, hC, hcond]
  · simp [htr, runLoaded, summaryEvents, summaryHead, hN, hC, hcond]
  · simp [htr, runLoaded, summaryEvents, summaryHead, hN, hC, hcond]
  · simp [htr, runLoaded, summaryEvents, summaryHead, dupBlock, hN, hC, hcond]
  · intro c hc
    have hmap : Event.printValueCounts c ∈ (cat_cols df).map Event.printValueCounts :=
      List.mem_map_of_mem Event.printValueCounts hc
    simp only [htr, runLoaded, summaryEvents, summaryHead, catCountsBlock,
      if_neg hN, if_neg hC, if_neg hcond, List.mem_cons, List.mem_append]
    tauto
  · rw [htr, runLoaded, if_neg hcond]
    rw [show Event.print (loadingMsg env) ::
          (Event.mkdirOutput ::
            (summaryEvents df ++ (plotEvents df ++ [Event.print (completedMsg env)]))) =
        (Event.print (loadingMsg env) ::
          Event.mkdirOutput :: (summaryEvents df ++ plotEvents df)) ++
          [Event.print (completedMsg env)] by simp]
    exact List.getLast?_concat _

/-- Counterexample to C2 as stated: the successfully loaded Dataset whose
only column is `object` makes `describe(include='number')` at line 76
raise — the trace records the ValueError, the numeric describe never
reports, the duplicate report is never reached and the completion line is
never printed. -/
theorem summary_reporter_total_cex :
    Event.raisedError noObjectsMsg ∈
      mainTrace ⟨true, some ⟨[⟨"city", Dtype.object⟩], [[some "x"]]⟩, none, "/app"⟩ ∧
    Event.printDescribeNumeric (num_cols ⟨[⟨"city", Dtype.object⟩], [[some "x"]]⟩) ∉
      mainTrace ⟨true, some ⟨[⟨"city", Dtype.object⟩], [[some "x"]]⟩, none, "/app"⟩ ∧
    Event.printDupCount (dup_count ⟨[⟨"city", Dtype.object⟩], [[some "x"]]⟩) ∉
      mainTrace ⟨true, some ⟨[⟨"city", Dtype.object⟩], [[some "x"]]⟩, none, "/app"⟩ ∧
    (mainTrace ⟨true, some ⟨[⟨"city", Dtype.object⟩], [[some "x"]]⟩, none, "/app"⟩).getLast? ≠
      some (Event.print
        (completedMsg ⟨true, some ⟨[⟨"city", Dtype.object⟩], [[some "x"]]⟩, none, "/app"⟩)) := by
  decide

/-- Witness for amended C2 at a Dataset with one numeric and one
categorical column. -/
theorem summary_reporter_total_witness :
    Env.fileExists
        ⟨true, some ⟨[⟨"age", Dtype.numeric⟩, ⟨"city", Dtype.object⟩],
          [[some "30", some "x"]]⟩, none, "/app"⟩ = true ∧
    loadDataset
        ⟨true, some ⟨[⟨"age", Dtype.numeric⟩, ⟨"city", Dtype.object⟩],
          [[some "30", some "x"]]⟩, none, "/app"⟩ =
      some ⟨[⟨"age", Dtype.numeric⟩, ⟨"city", Dtype.object⟩], [[some "30", some "x"]]⟩ ∧
    num_cols ⟨[⟨"age", Dtype.numeric⟩, ⟨"city", Dtype.object⟩], [[some "30", some "x"]]⟩ ≠ [] ∧
    cat_cols ⟨[⟨"age", Dtype.numeric⟩, ⟨"city", Dtype.object⟩], [[some "30", some "x"]]⟩ ≠ [] ∧
    Event.printValueCounts "city" ∈
      mainTrace ⟨true, some ⟨[⟨"age", Dtype.numeric⟩, ⟨"city", Dtype.object⟩],
        [[some "30", some "x"]]⟩, none, "/app"⟩ ∧
    (mainTrace ⟨true, some ⟨[⟨"age", Dtype.numeric⟩, ⟨"city", Dtype.object⟩],
        [[some "30", some "x"]]⟩, none, "/app"⟩).getLast? =
      some (Event.print
        (completedMsg ⟨true, some ⟨[⟨"age", Dtype.numeric⟩, ⟨"city", Dtype.object⟩],
          [[some "30", some "x"]]⟩, none, "/app"⟩)) := by
  have h := summary_reporter_total
    ⟨true, some ⟨[⟨"age", Dtype.numeric⟩, ⟨"city", Dtype.object⟩],
      [[some "30", some "x"]]⟩, none, "/app"⟩
    ⟨[⟨"age", Dtype.numeric⟩, ⟨"city", Dtype.object⟩], [[some "30", some "x"]]⟩
    rfl rfl (by decide) (by decide)
  exact ⟨rfl, rfl, by decide, by decide,
    h.2.2.2.2.2.2.2.1 "city" (by decide), h.2.2.2.2.2.2.2.2⟩

/-- C7 (amended): on every loaded Dataset having at least one numeric and
at least one object/category column — the only Datasets on which the run
survives both `describe` calls and reaches line 86 — the duplicate-row
count is printed; when it is zero the count line carries 0 and no examples
event occurs anywhere in the trace, and when it is positive the examples
event carries at most 5 rows. -/
theorem duplicate_report (env : Env) (df : Dataset)
    (hfe : env.fileExists = true) (h : loadDataset env = some df)
    (hN : num_cols df ≠ []) (hC : cat_cols df ≠ []) :
    Event.printDupCount (dup_count df) ∈ mainTrace env ∧
    (dup_count df = 0 →
      Event.printDupCount 0 ∈ mainTrace env ∧
      ∀ l, Event.printDupExamples l ∉ mainTrace env) ∧
    (0 < dup_count df →
      Event.printDupExamples (dup_examples df) ∈ mainTrace env ∧
      (dup_examples df).length ≤ 5) := by
  have htr := mainTrace_loaded env df hfe h
  have hcond : ¬(num_cols df = [] ∨ cat_cols df = []) := by
    push_neg
    exact ⟨hN, hC⟩
  refine ⟨?_, ?_, ?_⟩
  · simp [htr, runLoaded, summaryEvents, summaryHead, dupBlock, hN, hC, hcond]
  · intro hz
    constructor
    · rw [← hz]
      simp [htr, runLoaded, summaryEvents, summaryHead, dupBlock, hN, hC, hcond]
    · intro l
      have hplot := printDupExamples_not_mem_plot df l
      simp [htr, runLoaded, summaryEvents, summaryHead, dupBlock, catCountsBlock,
        hz, hN, hC, hcond, hplot, List.mem_map]
  · intro hpos
    constructor
    · simp [htr, runLoaded, summaryEvents, summaryHead, dupBlock, hN, hC, hcond, hpos]
    · exact (List.length_take 5 (duplicated df.rows)) ▸ min_le_left 5 _

/-- Counterexample to C7 as stated: a loaded all-numeric Dataset — even
one that does contain a duplicated row — never prints the duplicate count,
because `describe(include=['object', 'category'])` at line 81 raises
first. -/
theorem duplicate_report_cex :
    Event.printDupCount (dup_count ⟨[⟨"a", Dtype.numeric⟩], [[some "1"], [some "1"]]⟩) ∉
      mainTrace ⟨true, some ⟨[⟨"a", Dtype.numeric⟩], [[some "1"], [some "1"]]⟩, none, "/app"⟩ ∧
    0 < dup_count ⟨[⟨"a", Dtype.numeric⟩], [[some "1"], [some "1"]]⟩ ∧
    Event.raisedError noObjectsMsg ∈
      mainTrace ⟨true, some ⟨[⟨"a", Dtype.numeric⟩], [[some "1"], [some "1"]]⟩, none, "/app"⟩ := by
  decide

/-- Witness for amended C7 at a Dataset with one duplicated row and both
column kinds. -/
theorem duplicate_report_witness :
    Env.fileExists
        ⟨true, some ⟨[⟨"a", Dtype.numeric⟩, ⟨"c", Dtype.object⟩],
          [[some "1", some "x"], [some "1", some "x"]]⟩, none, "/app"⟩ = true ∧
    loadDataset
        ⟨true, some ⟨[⟨"a", Dtype.numeric⟩, ⟨"c", Dtype.object⟩],
          [[some "1", some "x"], [some "1", some "x"]]⟩, none, "/app"⟩ =
      some ⟨[⟨"a", Dtype.numeric⟩, ⟨"c", Dtype.object⟩],
        [[some "1", some "x"], [some "1", some "x"]]⟩ ∧
    0 < dup_count ⟨[⟨"a", Dtype.numeric⟩, ⟨"c", Dtype.object⟩],
      [[some "1", some "x"], [some "1", some "x"]]⟩ ∧
    Event.printDupExamples
        (dup_examples ⟨[⟨"a", Dtype.numeric⟩, ⟨"c", Dtype.object⟩],
          [[some "1", some "x"], [some "1", some "x"]]⟩) ∈
      mainTrace
        ⟨true, some ⟨[⟨"a", Dtype.numeric⟩, ⟨"c", Dtype.object⟩],
          [[some "1", some "x"], [some "1", some "x"]]⟩, none, "/app"⟩ ∧
    (dup_examples ⟨[⟨"a", Dtype.numeric⟩, ⟨"c", Dtype.object⟩],
      [[some "1", some "x"], [some "1", some "x"]]⟩).length ≤ 5 := by
  have h := duplicate_report
    ⟨true, some ⟨[⟨"a", Dtype.numeric⟩, ⟨"c", Dtype.object⟩],
      [[some "1", some "x"], [some "1", some "x"]]⟩, none, "/app"⟩
    ⟨[⟨"a", Dtype.numeric⟩, ⟨"c", Dtype.object⟩],
      [[some "1", some "x"], [some "1", some "x"]]⟩ rfl rfl (by decide) (by decide)
  have hpos : 0 < dup_count ⟨[⟨"a", Dtype.numeric⟩, ⟨"c", Dtype.object⟩],
      [[some "1", some "x"], [some "1", some "x"]]⟩ := by decide
  exact ⟨rfl, rfl, hpos, (h.2.2 hpos).1, (h.2.2 hpos).2⟩

/-- Console prints save no file. -/
theorem saveFiles_print_cons (s : String) (es : List Event) :
    saveFiles (Event.print s :: es) = saveFiles es := rfl

/-- Directory creation saves no file. -/
theorem saveFiles_mkdir_cons (es : List Event) :
    saveFiles (Event.mkdirOutput :: es) = saveFiles es := rfl

/-- `saveFiles` distributes over concatenation. -/
theorem saveFiles_append (a b : List Event) :
    saveFiles (a ++ b) = saveFiles a ++ saveFiles b :=
  List.filterMap_append a b _

/-- On a loaded Dataset that survives both `describe` calls, the files a
run saves are exactly the Plot Renderer's. -/
theorem saveFiles_mainTrace (env : Env) (df : Dataset)
    (hfe : env.fileExists = true) (h : loadDataset env = some df)
    (hN : num_cols df ≠ []) (hC : cat_cols df ≠ []) :
    saveFiles (mainTrace env) = saveFiles (plotEvents df) := by
  have hcond : ¬(num_cols df = [] ∨ cat_cols df = []) := by
    push_neg
    exact ⟨hN, hC⟩
  rw [mainTrace_loaded env df hfe h, runLoaded, if_neg hcond,
    saveFiles_print_cons, saveFiles_mkdir_cons, saveFiles_append,
    saveFiles_summary, saveFiles_append]
  simp [saveFiles]

/-- On a loaded Dataset on which a `describe` call raises, the run saves
no file at all. -/
theorem saveFiles_mainTrace_abort (env : Env) (df : Dataset)
    (hfe : env.fileExists = true) (h : loadDataset env = some df)
    (hab : num_cols df = [] ∨ cat_cols df = []) :
    saveFiles (mainTrace env) = [] := by
  rw [mainTrace_loaded env df hfe h, runLoaded, if_pos hab,
    saveFiles_print_cons, saveFiles_mkdir_cons, saveFiles_append,
    saveFiles_summary]
  rfl

/-- C3 (amended): a run on a Dataset with K ≥ 1 numeric columns that also
has an object/category column — without one, line 81's describe raises
before any plotting — saves exactly the 2×K histogram and boxplot files,
one pair per numeric column in column order, each named verbatim from the
column name (plus, separately, the correlation file when K ≥ 2). -/
theorem plot_files_per_numeric_column (env : Env) (df : Dataset) (K : Nat)
    (hfe : env.fileExists = true) (h : loadDataset env = some df)
    (hK : (num_cols df).length = K) (h1 : 1 ≤ K) (hC : cat_cols df ≠ []) :
    saveFiles (mainTrace env) =
      histBoxSaves df ++
        (if 1 < K then ["correlation_matrix.png"] else []) ∧
    histBoxSaves df =
      (num_cols df).flatMap
        (fun c => ["hist_" ++ c ++ ".png", "box_" ++ c ++ ".png"]) ∧
    (histBoxSaves df).length = 2 * K := by
  have hN : num_cols df ≠ [] := by
    intro h0
    rw [h0] at hK
    simp at hK
    omega
  refine ⟨?_, rfl, ?_⟩
  · rw [saveFiles_mainTrace env df hfe h hN hC, saveFiles_plot, hK]
  · rw [length_histBoxSaves, hK]

/-- Counterexample to C3 as stated: a loaded Dataset with two numeric
columns and no object/category column crashes at line 81's describe and
saves zero files, not 2×K. -/
theorem plot_files_per_numeric_column_cex :
    (num_cols ⟨[⟨"a", Dtype.numeric⟩, ⟨"b", Dtype.numeric⟩], []⟩).length = 2 ∧
    saveFiles
        (mainTrace
          ⟨true, some ⟨[⟨"a", Dtype.numeric⟩, ⟨"b", Dtype.numeric⟩], []⟩, none, "/app"⟩) =
      [] := by
  decide

/-- Witness for amended C3 at a Dataset with two numeric columns and one
categorical column. -/
theorem plot_files_per_numeric_column_witness :
    Env.fileExists
        ⟨true, some ⟨[⟨"a", Dtype.numeric⟩, ⟨"b", Dtype.numeric⟩, ⟨"city", Dtype.object⟩],
          []⟩, none, "/app"⟩ = true ∧
    loadDataset
        ⟨true, some ⟨[⟨"a", Dtype.numeric⟩, ⟨"b", Dtype.numeric⟩, ⟨"city", Dtype.object⟩],
          []⟩, none, "/app"⟩ =
      some ⟨[⟨"a", Dtype.numeric⟩, ⟨"b", Dtype.numeric⟩, ⟨"city", Dtype.object⟩], []⟩ ∧
    (num_cols ⟨[⟨"a", Dtype.numeric⟩, ⟨"b", Dtype.numeric⟩, ⟨"city", Dtype.object⟩],
      []⟩).length = 2 ∧
    1 ≤ 2 ∧
    cat_cols ⟨[⟨"a", Dtype.numeric⟩, ⟨"b", Dtype.numeric⟩, ⟨"city", Dtype.object⟩], []⟩ ≠ [] ∧
    (saveFiles
        (mainTrace
          ⟨true, some ⟨[⟨"a", Dtype.numeric⟩, ⟨"b", Dtype.numeric⟩, ⟨"city", Dtype.object⟩],
            []⟩, none, "/app"⟩) =
      histBoxSaves ⟨[⟨"a", Dtype.numeric⟩, ⟨"b", Dtype.numeric⟩, ⟨"city", Dtype.object⟩],
          []⟩ ++
        (if 1 < 2 then ["correlation_matrix.png"] else []) ∧
    histBoxSaves ⟨[⟨"a", Dtype.numeric⟩, ⟨"b", Dtype.numeric⟩, ⟨"city", Dtype.object⟩], []⟩ =
      (num_cols ⟨[⟨"a", Dtype.numeric⟩, ⟨"b", Dtype.numeric⟩, ⟨"city", Dtype.object⟩],
        []⟩).flatMap
        (fun c => ["hist_" ++ c ++ ".png", "box_" ++ c ++ ".png"]) ∧
    (histBoxSaves ⟨[⟨"a", Dtype.numeric⟩, ⟨"b", Dtype.numeric⟩, ⟨"city", Dtype.object⟩],
      []⟩).length = 2 * 2) :=
  ⟨rfl, rfl, rfl, by decide, by decide,
    plot_files_per_numeric_column
      ⟨true, some ⟨[⟨"a", Dtype.numeric⟩, ⟨"b", Dtype.numeric⟩, ⟨"city", Dtype.object⟩],
        []⟩, none, "/app"⟩
      ⟨[⟨"a", Dtype.numeric⟩, ⟨"b", Dtype.numeric⟩, ⟨"city", Dtype.object⟩], []⟩ 2
      rfl rfl rfl (by decide) (by decide)⟩

/-- The correlation file never appears among the per-column files. -/
theorem corr_not_mem_histBoxSaves (df : Dataset) :
    "correlation_matrix.png" ∉ histBoxSaves df := by
  intro hmem
  rcases List.mem_flatMap.mp hmem with ⟨c, _, hm⟩
  rw [List.mem_cons, List.mem_singleton] at hm
  rcases hm with h | h
  · exact histFile_ne_corr c h.symm
  · exact boxFile_ne_corr c h.symm

/-- C4 (amended): on loaded Datasets that also have an object/category
column — without one, line 81's describe raises before any plotting —
`correlation_matrix.png` is saved if and only if at least two numeric
columns exist, and then the heatmap is the Pearson correlation over all
numeric columns, annotated to 2 decimals, on a figure of width max(6, K)
and height max(4, K/2). -/
theorem correlation_matrix_policy (env : Env) (df : Dataset) (K : Nat)
    (hfe : env.fileExists = true) (h : loadDataset env = some df)
    (hK : (num_cols df).length = K) (hC : cat_cols df ≠ []) :
    ("correlation_matrix.png" ∈ saveFiles (mainTrace env) ↔ 2 ≤ K) ∧
    (2 ≤ K →
      Event.heatmap "pearson" (num_cols df) 2 ∈ mainTrace env ∧
      Event.figure (max 6 (K : ℚ)) (max 4 ((K : ℚ) / 2)) ∈ mainTrace env) := by
  by_cases hN : num_cols df = []
  · have hK0 : K = 0 := by
      rw [hN] at hK
      simpa using hK.symm
    subst hK0
    have hsf := saveFiles_mainTrace_abort env df hfe h (Or.inl hN)
    constructor
    · rw [hsf]
      simp
    · intro h2
      omega
  · have hcond : ¬(num_cols df = [] ∨ cat_cols df = []) := by
      push_neg
      exact ⟨hN, hC⟩
    have hsf : saveFiles (mainTrace env) =
        histBoxSaves df ++
          (if 1 < (num_cols df).length then ["correlation_matrix.png"] else []) := by
      rw [saveFiles_mainTrace env df hfe h hN hC, saveFiles_plot]
    constructor
    · rw [hsf]
      constructor
      · intro hmem
        rcases List.mem_append.mp hmem with hm | hm
        · exact absurd hm (corr_not_mem_histBoxSaves df)
        · by_cases h2 : 1 < (num_cols df).length
          · omega
          · rw [if_neg h2] at hm
            cases hm
      · intro h2
        have h2' : 1 < (num_cols df).length := by omega
        rw [if_pos h2']
        simp
    · intro h2
      have h2' : 1 < (num_cols df).length := by omega
      have htr := mainTrace_loaded env df hfe h
      constructor
      · simp [htr, runLoaded, plotEvents, hN, h2', hcond]
        exact Or.inr hC
      · have hfig : Event.figure (max 6 (K : ℚ)) (max 4 ((K : ℚ) / 2)) =
            Event.figure (corrFigsize (num_cols df).length).1
              (corrFigsize (num_cols df).length).2 := by
          rw [hK, corrFigsize]
        rw [hfig]
        simp [htr, runLoaded, plotEvents, hN, h2', hcond]
        exact Or.inr hC

/-- Counterexample to C4 as stated: a loaded all-numeric Dataset with two
numeric columns crashes at line 81's describe, so `correlation_matrix.png`
is never created even though K ≥ 2. -/
theorem correlation_matrix_policy_cex :
    2 ≤ (num_cols ⟨[⟨"x", Dtype.numeric⟩, ⟨"y", Dtype.numeric⟩], []⟩).length ∧
    "correlation_matrix.png" ∉
      saveFiles
        (mainTrace
          ⟨true, some ⟨[⟨"x", Dtype.numeric⟩, ⟨"y", Dtype.numeric⟩], []⟩, none, "/app"⟩) := by
  decide

/-- Witness for amended C4 at Datasets with two and with one numeric
column, each alongside a categorical column. -/
theorem correlation_matrix_policy_witness :
    (("correlation_matrix.png" ∈
        saveFiles
          (mainTrace
            ⟨true, some ⟨[⟨"a", Dtype.numeric⟩, ⟨"b", Dtype.numeric⟩, ⟨"city", Dtype.object⟩],
              []⟩, none, "/app"⟩) ↔
      2 ≤ 2) ∧
    (2 ≤ 2 →
      Event.heatmap "pearson"
          (num_cols ⟨[⟨"a", Dtype.numeric⟩, ⟨"b", Dtype.numeric⟩, ⟨"city", Dtype.object⟩],
            []⟩) 2 ∈
        mainTrace
          ⟨true, some ⟨[⟨"a", Dtype.numeric⟩, ⟨"b", Dtype.numeric⟩, ⟨"city", Dtype.object⟩],
            []⟩, none, "/app"⟩ ∧
      Event.figure (max 6 ((2 : Nat) : ℚ)) (max 4 (((2 : Nat) : ℚ) / 2)) ∈
        mainTrace
          ⟨true, some ⟨[⟨"a", Dtype.numeric⟩, ⟨"b", Dtype.numeric⟩, ⟨"city", Dtype.object⟩],
            []⟩, none, "/app"⟩)) ∧
    ("correlation_matrix.png" ∈
        saveFiles
          (mainTrace
            ⟨true, some ⟨[⟨"a", Dtype.numeric⟩, ⟨"city", Dtype.object⟩], []⟩, none, "/app"⟩) ↔
      2 ≤ 1) :=
  ⟨correlation_matrix_policy
      ⟨true, some ⟨[⟨"a", Dtype.numeric⟩, ⟨"b", Dtype.numeric⟩, ⟨"city", Dtype.object⟩],
        []⟩, none, "/app"⟩
      ⟨[⟨"a", Dtype.numeric⟩, ⟨"b", Dtype.numeric⟩, ⟨"city", Dtype.object⟩], []⟩ 2
      rfl rfl rfl (by decide),
    (correlation_matrix_policy
      ⟨true, some ⟨[⟨"a", Dtype.numeric⟩, ⟨"city", Dtype.object⟩], []⟩, none, "/app"⟩
      ⟨[⟨"a", Dtype.numeric⟩, ⟨"city", Dtype.object⟩], []⟩ 1 rfl rfl rfl (by decide)).1⟩

/-- Console prints are not filesystem actions. -/
theorem fsEvents_print_cons (s : String) (es : List Event) :
    fsEvents (Event.print s :: es) = fsEvents es := rfl

/-- Directory creation is recorded as a filesystem action. -/
theorem fsEvents_mkdir_cons (es : List Event) :
    fsEvents (Event.mkdirOutput :: es) = Event.mkdirOutput :: fsEvents es := rfl

/-- `fsEvents` distributes over concatenation. -/
theorem fsEvents_append (a b : List Event) :
    fsEvents (a ++ b) = fsEvents a ++ fsEvents b :=
  List.filter_append a b

/-- A run's loading line is never the no-numeric-columns notice. -/
theorem loadingMsg_ne_notice (env : Env) :
    loadingMsg env ≠ "No se detectaron columnas numéricas para graficar." := by
  intro hq
  have h2 := congrArg String.data hq
  rw [loadingMsg] at h2
  rw [String.data_append, String.data_append] at h2
  have hh : "Cargando: ".data = ['C', 'a', 'r', 'g', 'a', 'n', 'd', 'o', ':', ' '] := rfl
  rw [hh] at h2
  simp at h2

/-- C8 (amended): with zero numeric columns the run never reaches the
notice of line 132 — `describe(include='number')` at line 76 raises first
and aborts the run — and plotting is skipped vacuously: no file is saved
and the only filesystem action in the whole trace is the creation of the
output directory. -/
theorem no_numeric_columns_aborts (env : Env) (df : Dataset)
    (hfe : env.fileExists = true) (h : loadDataset env = some df)
    (hz : num_cols df = []) :
    Event.raisedError noObjectsMsg ∈ mainTrace env ∧
    Event.print "No se detectaron columnas numéricas para graficar." ∉
      mainTrace env ∧
    saveFiles (mainTrace env) = [] ∧
    fsEvents (mainTrace env) = [Event.mkdirOutput] := by
  have htr := mainTrace_loaded env df hfe h
  have hab : num_cols df = [] ∨ cat_cols df = [] := Or.inl hz
  refine ⟨?_, ?_, ?_, ?_⟩
  · simp [htr, runLoaded, summaryEvents, summaryHead, hz, hab]
  · simp [htr, runLoaded, summaryEvents, summaryHead, hz, hab]
    exact fun hq => loadingMsg_ne_notice env hq.symm
  · exact saveFiles_mainTrace_abort env df hfe h hab
  · rw [htr, runLoaded, if_pos hab, List.append_nil, fsEvents_print_cons,
      fsEvents_mkdir_cons, fsEvents_summary]

/-- Counterexample to C8 as stated: a loaded zero-numeric Dataset aborts
at line 76 with the ValueError, so the notice of line 132 is never
printed. -/
theorem no_numeric_columns_skips_plots_cex :
    num_cols ⟨[⟨"name", Dtype.object⟩], []⟩ = [] ∧
    Event.print "No se detectaron columnas numéricas para graficar." ∉
      mainTrace ⟨true, some ⟨[⟨"name", Dtype.object⟩], []⟩, none, "/app"⟩ ∧
    Event.raisedError noObjectsMsg ∈
      mainTrace ⟨true, some ⟨[⟨"name", Dtype.object⟩], []⟩, none, "/app"⟩ := by
  decide

/-- Witness for amended C8 at a Dataset whose single column is textual. -/
theorem no_numeric_columns_aborts_witness :
    Env.fileExists ⟨true, some ⟨[⟨"city", Dtype.object⟩], []⟩, none, "/app"⟩ = true ∧
    loadDataset ⟨true, some ⟨[⟨"city", Dtype.object⟩], []⟩, none, "/app"⟩ =
      some ⟨[⟨"city", Dtype.object⟩], []⟩ ∧
    num_cols ⟨[⟨"city", Dtype.object⟩], []⟩ = [] ∧
    (Event.raisedError noObjectsMsg ∈
        mainTrace ⟨true, some ⟨[⟨"city", Dtype.object⟩], []⟩, none, "/app"⟩ ∧
      Event.print "No se detectaron columnas numéricas para graficar." ∉
        mainTrace ⟨true, some ⟨[⟨"city", Dtype.object⟩], []⟩, none, "/app"⟩ ∧
      saveFiles (mainTrace ⟨true, some ⟨[⟨"city", Dtype.object⟩], []⟩, none, "/app"⟩) = [] ∧
      fsEvents (mainTrace ⟨true, some ⟨[⟨"city", Dtype.object⟩], []⟩, none, "/app"⟩) =
        [Event.mkdirOutput]) :=
  ⟨rfl, rfl, rfl,
    no_numeric_columns_aborts
      ⟨true, some ⟨[⟨"city", Dtype.object⟩], []⟩, none, "/app"⟩
      ⟨[⟨"city", Dtype.object⟩], []⟩ rfl rfl rfl⟩

/-- C10: the duplicate count counts only repeats of an earlier row — each
row value occurring in the table is counted one time fewer than its number
of occurrences, so a group of k identical rows contributes k−1 — and the
printed examples are drawn from those repeats, hence exclude every group's
first occurrence. -/
theorem duplicate_count_excludes_first (df : Dataset) (v : Row)
    (hv : v ∈ df.rows) :
    dup_count df = (duplicated df.rows).length ∧
    (duplicated df.rows).count v = df.rows.count v - 1 ∧
    dup_examples df = (duplicated df.rows).take 5 ∧
    (dup_examples df).count v ≤ df.rows.count v - 1 := by
  refine ⟨rfl, duplicated_count df.rows v hv, rfl, ?_⟩
  have hsub : (dup_examples df).count v ≤ (duplicated df.rows).count v :=
    (List.take_sublist 5 (duplicated df.rows)).count_le v
  rw [← duplicated_count df.rows v hv]
  exact hsub

/-- Witness for C10 at a table with a group of three identical rows. -/
theorem duplicate_count_excludes_first_witness :
    [some "1"] ∈
      (Dataset.mk [⟨"a", Dtype.numeric⟩]
        [[some "1"], [some "1"], [some "1"]]).rows ∧
    (dup_count
        (Dataset.mk [⟨"a", Dtype.numeric⟩]
          [[some "1"], [some "1"], [some "1"]]) =
      (duplicated
        (Dataset.mk [⟨"a", Dtype.numeric⟩]
          [[some "1"], [some "1"], [some "1"]]).rows).length ∧
    (duplicated
        (Dataset.mk [⟨"a", Dtype.numeric⟩]
          [[some "1"], [some "1"], [some "1"]]).rows).count [some "1"] =
      (Dataset.mk [⟨"a", Dtype.numeric⟩]
        [[some "1"], [some "1"], [some "1"]]).rows.count [some "1"] - 1 ∧
    dup_examples
        (Dataset.mk [⟨"a", Dtype.numeric⟩]
          [[some "1"], [some "1"], [some "1"]]) =
      (duplicated
        (Dataset.mk [⟨"a", Dtype.numeric⟩]
          [[some "1"], [some "1"], [some "1"]]).rows).take 5 ∧
    (dup_examples
        (Dataset.mk [⟨"a", Dtype.numeric⟩]
          [[some "1"], [some "1"], [some "1"]])).count [some "1"] ≤
      (Dataset.mk [⟨"a", Dtype.numeric⟩]
        [[some "1"], [some "1"], [some "1"]]).rows.count [some "1"] - 1) :=
  ⟨by decide,
    duplicate_count_excludes_first
      (Dataset.mk [⟨"a", Dtype.numeric⟩] [[some "1"], [some "1"], [some "1"]])
      [some "1"] (by decide)⟩

/-- C6: a well-formed comma-delimited CSV — a header naming M columns and
N data lines of M fields each — is parsed on the first attempt into a
Dataset of shape (N, M), and a run loading it prints the shape line
(N, M). -/
theorem shape_line_matches (header : String) (rest : List String) (N M : Nat)
    (hM : (splitRow ',' header).length = M)
    (hr : ∀ r ∈ rest, (splitRow ',' r).length = M)
    (hN : rest.length = N) :
    ∃ df : Dataset, parseCSV ',' (header :: rest) = some df ∧
      shape df = (N, M) ∧
      ∀ env : Env, env.fileExists = true → env.parseComma = some df →
        Event.printShape N M ∈ mainTrace env := by
  have hall : ((rest.map (splitRow ',')).all
      (fun r => r.length == (splitRow ',' header).length)) = true := by
    rw [List.all_eq_true]
    intro r hrm
    rcases List.mem_map.mp hrm with ⟨s, hs, rfl⟩
    simp [hr s hs, hM]
  refine ⟨⟨(splitRow ',' header).enum.map (fun p =>
      ⟨p.2, inferDtype ((rest.map (splitRow ',')).filterMap (fun r => r.get? p.1))⟩),
    (rest.map (splitRow ',')).map (fun r => r.map some)⟩, ?_, ?_, ?_⟩
  · simp only [parseCSV, hall, if_true]
  · simp [shape, hN, hM, List.enum_length]
  · intro env hfe hpc
    have hload : loadDataset env = some ⟨(splitRow ',' header).enum.map (fun p =>
        ⟨p.2, inferDtype ((rest.map (splitRow ',')).filterMap (fun r => r.get? p.1))⟩),
      (rest.map (splitRow ',')).map (fun r => r.map some)⟩ := by
      simp [loadDataset, hpc]
    have htr := mainTrace_loaded env _ hfe hload
    have hrows : (((rest.map (splitRow ',')).map (fun r => r.map some)).length) = N := by
      simp [hN]
    have hcols : (((splitRow ',' header).enum.map (fun p =>
        (⟨p.2, inferDtype ((rest.map (splitRow ',')).filterMap (fun r => r.get? p.1))⟩ :
          Column))).length) = M := by
      simp [List.enum_length, hM]
    simp [htr, runLoaded, summaryEvents, summaryHead, hrows, hcols]
    exact Or.inl ⟨hN.symm, hM.symm⟩

/-- Witness for C6 at a concrete two-column, two-row CSV. -/
theorem shape_line_matches_witness :
    (splitRow ',' "age,city").length = 2 ∧
    (∀ r ∈ ["30,Cali", "41,Bogota"], (splitRow ',' r).length = 2) ∧
    (∃ df : Dataset,
      parseCSV ',' ("age,city" :: ["30,Cali", "41,Bogota"]) = some df ∧
      shape df = (2, 2) ∧
      ∀ env : Env, env.fileExists = true → env.parseComma = some df →
        Event.printShape 2 2 ∈ mainTrace env) :=
  ⟨by decide, by decide,
    shape_line_matches "age,city" ["30,Cali", "41,Bogota"] 2 2
      (by decide) (by decide) rfl⟩
